import Mathlib

/-!
Verification of the Janus signaling client (`src/janus.py`): a shallow
embedding of the session / plugin-handle correlation engine and proofs of
the specification's claims about it.

JSON values are modelled by `JVal`; decoded JSON objects (Python dicts)
by association lists `JObj` with Python-dict lookup/assignment semantics.
Network I/O is modelled by passing the gateway's replies as explicit
parameters (`PostOutcome`); randomness (`transaction_id()`) is modelled by
passing the generated token as a parameter.
-/

mutual

/-- A decoded JSON value (the subset the client inspects: strings, numbers
and nested objects; other shapes are irrelevant to the control flow). -/
inductive JVal where
  | jstr : String → JVal
  | jnum : Int → JVal
  | jobj : JFields → JVal

/-- The fields of a nested JSON object, as an ordered key-value sequence. -/
inductive JFields where
  | fnil : JFields
  | fcons : String → JVal → JFields → JFields

end

deriving instance DecidableEq for JVal, JFields
deriving instance Repr for JVal, JFields

/-- A decoded top-level JSON object, i.e. a Python dict: keys to values. -/
abbrev JObj := List (String × JVal)

/-- Lookup in a nested object's fields (Python `d[k]`, first match). -/
def JFields.get : JFields → String → Option JVal
  | .fnil, _ => none
  | .fcons k' v t, k => if k = k' then some v else JFields.get t k

namespace alist

/-- Python `d.get(k)` / `d[k]`-style lookup: the value of the first entry
whose key matches, if any. -/
def get {α β : Type} [DecidableEq α] : List (α × β) → α → Option β
  | [], _ => none
  | (k', v) :: t, k => if k = k' then some v else get t k

/-- Python `d[k] = v`: replace the value of an existing key in place,
otherwise append the new entry at the end (dict insertion order). -/
def set {α β : Type} [DecidableEq α] : List (α × β) → α → β → List (α × β)
  | [], k, v => [(k, v)]
  | (k', v') :: t, k, v => if k = k' then (k, v) :: t else (k', v') :: set t k v

/-- Python `base.update(upd)`: assign every entry of `upd` into `base`, in
order. -/
def updateAll {α β : Type} [DecidableEq α] (base upd : List (α × β)) : List (α × β) :=
  upd.foldl (fun acc kv => set acc kv.1 kv.2) base

end alist

/-- Python `str(v)` for the values the client stringifies (gateway-assigned
ids, in practice integers or strings). Nested objects never occur as ids;
they are given a placeholder rendering. -/
def JVal.pyStr : JVal → String
  | .jstr s => s
  | .jnum n => toString n
  | .jobj _ => "<dict>"

/-- Outcome of one HTTP POST issued by the client: the gateway's decoded
JSON reply, or a transport-level failure (the request raises). -/
inductive PostOutcome where
  | reply : JObj → PostOutcome
  | fail : PostOutcome
deriving DecidableEq, Repr

/-- The ways `JanusPlugin.send` can raise instead of returning. -/
inductive SendError where
  /-- the HTTP POST itself failed -/
  | transport : SendError
  /-- KeyError: the synchronous reply has no `janus` field -/
  | keyErrorJanus : SendError
  /-- AssertionError: the synchronous reply's `janus` is not `"ack"` -/
  | assertAck : SendError
  /-- `self._queue.get()` would suspend forever: inbox empty -/
  | blocked : SendError
  /-- KeyError: the dequeued event has no `transaction` field -/
  | keyErrorTxn : SendError
  /-- AssertionError: the dequeued event's `transaction` mismatches -/
  | assertTxn : SendError
deriving DecidableEq, Repr

deriving instance DecidableEq for Except

/-- Observable result of one `JanusPlugin.send` call. -/
structure SendResult where
  /-- the envelope POSTed to the plugin URL (exactly one POST, no retry) -/
  posted : JObj
  /-- how many items were taken from the handle's inbox -/
  dequeued : Nat
  /-- the handle's inbox after the call (a consumed item is never re-queued) -/
  inboxAfter : List JObj
  /-- the returned event, or the error raised -/
  outcome : Except SendError JObj
deriving DecidableEq, Repr

/-- The envelope `send` builds:
`message = {"janus": "message", "transaction": transaction_id()}` followed by
`message.update(payload)`. -/
def JanusPlugin.mkMessage (genId : String) (payload : JObj) : JObj :=
  alist.updateAll [("janus", JVal.jstr "message"), ("transaction", JVal.jstr genId)] payload

/-- Embedding of `JanusPlugin.send` (src/janus.py lines 84-93). `genId` is
the token produced by `transaction_id()`, `ackReply` the outcome of the
HTTP POST, `inbox` the contents of `self._queue`. -/
def JanusPlugin.send (genId : String) (payload : JObj)
    (ackReply : PostOutcome) (inbox : List JObj) : SendResult :=
  let message := JanusPlugin.mkMessage genId payload
  match ackReply with
  | .fail => ⟨message, 0, inbox, .error .transport⟩
  | .reply data =>
    match alist.get data "janus" with
    | none => ⟨message, 0, inbox, .error .keyErrorJanus⟩
    | some v =>
      if v = JVal.jstr "ack" then
        match inbox with
        | [] => ⟨message, 0, inbox, .error .blocked⟩
        | item :: rest =>
          match alist.get item "transaction" with
          | none => ⟨message, 1, rest, .error .keyErrorTxn⟩
          | some t =>
            if some t = alist.get message "transaction" then
              ⟨message, 1, rest, .ok item⟩
            else
              ⟨message, 1, rest, .error .assertTxn⟩
      else ⟨message, 0, inbox, .error .assertAck⟩

/-- A `JanusPlugin` as stored in the session's registry: its URL and the
contents of its `_queue` (the inbox), oldest item first. The back-reference
`_session` is implicit (handles live inside their session's state). -/
structure PluginHandle where
  url : String
  inbox : List JObj
deriving DecidableEq, Repr

/-- The mutable state of a `JanusSession`. `http` models whether
`self._http` holds an open client (`True`) or is `None`; `pollTask`
whether `self._poll_task` holds a task; `plugins` is the dict
`self._plugins` keyed by gateway-assigned plugin id. -/
structure SessionState where
  http : Bool
  pollTask : Bool
  plugins : List (JVal × PluginHandle)
  rootUrl : String
  sessionUrl : Option String
deriving DecidableEq, Repr

/-- `JanusSession.__init__(url)`: no transport, no poll task, empty
registry, no session URL. -/
def JanusSession.init (url : String) : SessionState :=
  ⟨false, false, [], url, none⟩

/-- Observable result of `JanusSession.create`. -/
structure CreateResult where
  state : SessionState
  /-- the URL the create envelope was POSTed to -/
  postedTo : String
  /-- the envelope POSTed -/
  posted : JObj
  /-- `true` when create returned normally, `false` when it raised -/
  ok : Bool
deriving DecidableEq, Repr

/-- Embedding of `JanusSession.create` (src/janus.py lines 118-127):
open the HTTP client, POST `{"janus": "create", "transaction": id}` to the
root URL, require a `"success"` reply, derive `sessionUrl` from the
gateway-assigned id and start the poll task. On a transport failure, a
non-success reply or a missing `data.id`, the exception propagates with
the state reached so far (client opened, no session URL, no poll task). -/
def JanusSession.create (s : SessionState) (genId : String)
    (post : PostOutcome) : CreateResult :=
  let s0 := { s with http := true }
  let message : JObj := [("janus", JVal.jstr "create"), ("transaction", JVal.jstr genId)]
  match post with
  | .fail => ⟨s0, s.rootUrl, message, false⟩
  | .reply data =>
    if alist.get data "janus" = some (JVal.jstr "success") then
      match alist.get data "data" with
      | some (.jobj inner) =>
        match JFields.get inner "id" with
        | some sid =>
          let s1 := { s0 with sessionUrl := some (s0.rootUrl ++ "/" ++ sid.pyStr) }
          ⟨{ s1 with pollTask := true }, s.rootUrl, message, true⟩
        | none => ⟨s0, s.rootUrl, message, false⟩
      | _ => ⟨s0, s.rootUrl, message, false⟩
    else ⟨s0, s.rootUrl, message, false⟩

/-- Observable result of `JanusSession.attach`. -/
structure AttachResult where
  state : SessionState
  posted : JObj
  /-- the id under which the new handle was registered, when successful -/
  pluginId : Option JVal
  ok : Bool
deriving DecidableEq, Repr

/-- Embedding of `JanusSession.attach` (src/janus.py lines 104-116): POST
an attach envelope to the session URL, require `"success"`, register a
fresh handle (empty inbox) under the gateway-assigned plugin id. `attach`
is only called on an active session, so the session URL is read with a
default that never occurs in a legal trace. -/
def JanusSession.attach (s : SessionState) (pluginName genId : String)
    (post : PostOutcome) : AttachResult :=
  let message : JObj := [("janus", JVal.jstr "attach"),
    ("plugin", JVal.jstr pluginName), ("transaction", JVal.jstr genId)]
  match post with
  | .fail => ⟨s, message, none, false⟩
  | .reply data =>
    if alist.get data "janus" = some (JVal.jstr "success") then
      match alist.get data "data" with
      | some (.jobj inner) =>
        match JFields.get inner "id" with
        | some pid =>
          let handle : PluginHandle :=
            ⟨(s.sessionUrl.getD "") ++ "/" ++ pid.pyStr, []⟩
          ⟨{ s with plugins := alist.set s.plugins pid handle }, message, some pid, true⟩
        | none => ⟨s, message, none, false⟩
      | _ => ⟨s, message, none, false⟩
    else ⟨s, message, none, false⟩

/-- Observable result of `JanusSession.destroy`. -/
structure DestroyResult where
  state : SessionState
  /-- how many destroy envelopes were POSTed to the gateway -/
  requests : Nat
  /-- `true` when destroy returned normally, `false` when it raised -/
  ok : Bool
deriving DecidableEq, Repr

/-- Embedding of `JanusSession.destroy` (src/janus.py lines 129-143), in
source order: cancel the poll task if present; if a session URL is set,
POST the destroy envelope and require a `"success"` reply, then clear the
session URL; finally close the HTTP client if open. There is no
try/finally: when the POST fails or the reply is not a success, the
exception propagates at that point and the remaining steps do not run. -/
def JanusSession.destroy (s : SessionState) (post : PostOutcome) : DestroyResult :=
  let s1 := if s.pollTask then { s with pollTask := false } else s
  match s1.sessionUrl with
  | some _ =>
    match post with
    | .fail => ⟨s1, 1, false⟩
    | .reply data =>
      if alist.get data "janus" = some (JVal.jstr "success") then
        let s2 := { s1 with sessionUrl := none }
        ⟨if s2.http then { s2 with http := false } else s2, 1, true⟩
      else ⟨s1, 1, false⟩
  | none =>
    ⟨if s1.http then { s1 with http := false } else s1, 0, true⟩

/-- The ways one iteration of `JanusSession._poll` can raise. -/
inductive PollError where
  /-- KeyError: the received message has no `janus` field -/
  | keyErrorJanus : PollError
  /-- KeyError: an `"event"` message has no `sender` field -/
  | keyErrorSender : PollError
deriving DecidableEq, Repr

/-- Embedding of the dispatch performed by one iteration of
`JanusSession._poll` (src/janus.py lines 145-156) on one received message
`data`: if `data["janus"] == "event"`, look the sender up in the plugin
registry; a registered sender's handle gets the message appended to its
queue, an unknown sender is printed and discarded. Non-event messages are
ignored. A missing `janus` or `sender` key raises `KeyError`, which
escapes the loop. -/
def JanusSession.pollDispatch (plugins : List (JVal × PluginHandle))
    (data : JObj) : Except PollError (List (JVal × PluginHandle)) :=
  match alist.get data "janus" with
  | none => .error .keyErrorJanus
  | some v =>
    if v = JVal.jstr "event" then
      match alist.get data "sender" with
      | none => .error .keyErrorSender
      | some sender =>
        match alist.get plugins sender with
        | some handle =>
          .ok (alist.set plugins sender { handle with inbox := handle.inbox ++ [data] })
        | none => .ok plugins
    else .ok plugins

/-- The poll loop's cumulative effect on the registry over a sequence of
received messages: dispatch each in arrival order, stopping at the first
uncaught exception. -/
def JanusSession.pollRun (plugins : List (JVal × PluginHandle)) :
    List JObj → Except PollError (List (JVal × PluginHandle))
  | [] => .ok plugins
  | data :: rest =>
    match JanusSession.pollDispatch plugins data with
    | .ok plugins' => JanusSession.pollRun plugins' rest
    | .error e => .error e

/-- The spec's activity invariant, as a boolean predicate on session
state: the session URL is set exactly when a poll task is running. -/
def SessionState.activeInv (s : SessionState) : Bool :=
  s.sessionUrl.isSome = s.pollTask

/-- The spec's inbox invariant, as a boolean predicate on the plugin
registry: every message in every handle's inbox carries a `sender` field
equal to the id the handle is registered under. -/
def inboxInv (plugins : List (JVal × PluginHandle)) : Bool :=
  plugins.all fun ph => ph.2.inbox.all fun m => alist.get m "sender" = some ph.1

namespace alist

theorem get_set_self {α β : Type} [DecidableEq α] (l : List (α × β)) (k : α) (v : β) :
    get (set l k v) k = some v := by
  induction l with
  | nil => simp [set, get]
  | cons hd t ih =>
    obtain ⟨k', v'⟩ := hd
    by_cases h : k = k'
    · simp [set, h, get]
    · simp [set, h, get, ih]

theorem get_set_ne {α β : Type} [DecidableEq α] (l : List (α × β)) (k k' : α) (v : β)
    (h : k' ≠ k) : get (set l k v) k' = get l k' := by
  induction l with
  | nil => simp [set, get, h]
  | cons hd t ih =>
    obtain ⟨k₁, v₁⟩ := hd
    by_cases hk : k = k₁
    · subst hk
      simp [set, get, h]
    · by_cases hk' : k' = k₁ <;> simp [set, get, hk, hk', ih]

theorem updateAll_nil {α β : Type} [DecidableEq α] (b : List (α × β)) :
    updateAll b [] = b := rfl

theorem updateAll_cons {α β : Type} [DecidableEq α] (b t : List (α × β)) (k : α) (v : β) :
    updateAll b ((k, v) :: t) = updateAll (set b k v) t := rfl

theorem get_updateAll_of_none {α β : Type} [DecidableEq α] (b p : List (α × β)) (k : α)
    (h : get p k = none) : get (updateAll b p) k = get b k := by
  induction p generalizing b with
  | nil => rfl
  | cons hd t ih =>
    obtain ⟨k₁, v₁⟩ := hd
    by_cases hk : k = k₁
    · simp [get, hk] at h
    · simp only [get, if_neg hk] at h
      rw [updateAll_cons, ih _ h, get_set_ne _ _ _ _ hk]

theorem get_eq_none_of_not_mem_keys {α β : Type} [DecidableEq α]
    (l : List (α × β)) (k : α) (h : k ∉ l.map Prod.fst) : get l k = none := by
  induction l with
  | nil => rfl
  | cons hd t ih =>
    simp only [List.map_cons, List.mem_cons] at h
    push_neg at h
    simp [get, h.1, ih h.2]

theorem get_updateAll_of_some {α β : Type} [DecidableEq α] (b p : List (α × β))
    (k : α) (v : β) (hnd : (p.map Prod.fst).Nodup) (h : get p k = some v) :
    get (updateAll b p) k = some v := by
  induction p generalizing b with
  | nil => simp [get] at h
  | cons hd t ih =>
    obtain ⟨k₁, v₁⟩ := hd
    simp only [List.map_cons, List.nodup_cons] at hnd
    by_cases hk : k = k₁
    · simp only [get, if_pos hk] at h
      subst hk
      have ht : get t k = none := get_eq_none_of_not_mem_keys t k hnd.1
      rw [updateAll_cons, get_updateAll_of_none _ _ _ ht, get_set_self]
      exact h.symm ▸ rfl
    · simp only [get, if_neg hk] at h
      rw [updateAll_cons]
      exact ih _ hnd.2 h

theorem set_of_fresh {α β : Type} [DecidableEq α] (l : List (α × β)) (k : α) (v : β)
    (h : k ∉ l.map Prod.fst) : set l k v = l ++ [(k, v)] := by
  induction l with
  | nil => rfl
  | cons hd t ih =>
    obtain ⟨k₁, v₁⟩ := hd
    simp only [List.map_cons, List.mem_cons] at h
    push_neg at h
    simp [set, h.1, ih h.2]

theorem updateAll_of_fresh {α β : Type} [DecidableEq α] (b p : List (α × β))
    (hnd : (p.map Prod.fst).Nodup) (h : ∀ k ∈ p.map Prod.fst, k ∉ b.map Prod.fst) :
    updateAll b p = b ++ p := by
  induction p generalizing b with
  | nil => simp [updateAll_nil]
  | cons hd t ih =>
    obtain ⟨k₁, v₁⟩ := hd
    simp only [List.map_cons, List.nodup_cons] at hnd
    rw [updateAll_cons, set_of_fresh b k₁ v₁ (h k₁ (by simp))]
    rw [ih (b ++ [(k₁, v₁)]) hnd.2]
    · simp
    · intro k hk
      simp only [List.map_append, List.mem_append, List.map_cons]
      push_neg
      constructor
      · exact h k (by simp [hk])
      · simp only [List.map_nil, List.mem_cons, List.not_mem_nil]
        intro hkk
        rcases hkk with hkk | hkk
        · exact absurd (hkk ▸ hk) hnd.1
        · exact hkk.elim

theorem mem_set {α β : Type} [DecidableEq α] (l : List (α × β)) (k : α) (v : β)
    (x : α × β) (h : x ∈ set l k v) : x ∈ l ∨ x = (k, v) := by
  induction l with
  | nil => simp [set] at h; simp [h]
  | cons hd t ih =>
    obtain ⟨k₁, v₁⟩ := hd
    by_cases hk : k = k₁
    · simp only [set, if_pos hk, List.mem_cons] at h
      rcases h with h | h
      · exact Or.inr h
      · exact Or.inl (List.mem_cons_of_mem _ h)
    · simp only [set, if_neg hk, List.mem_cons] at h
      rcases h with h | h
      · exact Or.inl (h ▸ List.mem_cons_self _ _)
      · rcases ih h with h' | h'
        · exact Or.inl (List.mem_cons_of_mem _ h')
        · exact Or.inr h'

theorem get_mem {α β : Type} [DecidableEq α] (l : List (α × β)) (k : α) (v : β)
    (h : get l k = some v) : (k, v) ∈ l := by
  induction l with
  | nil => simp [get] at h
  | cons hd t ih =>
    obtain ⟨k₁, v₁⟩ := hd
    by_cases hk : k = k₁
    · simp only [get, if_pos hk, Option.some.injEq] at h
      subst hk; subst h
      exact List.mem_cons_self _ _
    · simp only [get, if_neg hk] at h
      exact List.mem_cons_of_mem _ (ih h)

end alist

theorem inboxInv_iff (plugins : List (JVal × PluginHandle)) :
    inboxInv plugins = true ↔
      ∀ x ∈ plugins, ∀ m ∈ x.2.inbox, alist.get m "sender" = some x.1 := by
  simp [inboxInv, List.all_eq_true]

/-- The envelope built by `send` keeps the generated transaction id
whenever the payload does not supply its own. -/
theorem mkMessage_txn_default (genId : String) (payload : JObj)
    (hp : alist.get payload "transaction" = none) :
    alist.get (JanusPlugin.mkMessage genId payload) "transaction"
      = some (JVal.jstr genId) := by
  unfold JanusPlugin.mkMessage
  rw [alist.get_updateAll_of_none _ _ _ hp]
  simp [alist.get]

/-- A fully torn-down session (no poll task, no session URL, no client) is
a fixed point of `destroy`: no gateway request, no error, no state change. -/
theorem destroy_of_torn (s : SessionState) (p : PostOutcome)
    (h1 : s.pollTask = false) (h2 : s.sessionUrl = none) (h3 : s.http = false) :
    JanusSession.destroy s p = ⟨s, 0, true⟩ := by
  simp [JanusSession.destroy, h1, h2, h3]

/-- A `destroy` that returns normally leaves the session fully torn down. -/
theorem destroy_ok_state (s : SessionState) (p : PostOutcome)
    (h : (JanusSession.destroy s p).ok = true) :
    (JanusSession.destroy s p).state.pollTask = false ∧
    (JanusSession.destroy s p).state.sessionUrl = none ∧
    (JanusSession.destroy s p).state.http = false := by
  obtain ⟨http, pollTask, plugins, rootUrl, sessionUrl⟩ := s
  cases http <;> cases pollTask <;> cases sessionUrl <;> cases p <;>
    simp_all [JanusSession.destroy] <;> split_ifs at h ⊢ <;> simp_all

/-- C7: a `send` whose synchronous reply carries a `janus` field other than
`"ack"` raises immediately (AssertionError), with the single POST already
issued, zero items dequeued from the inbox and the inbox untouched — so
the failure is fail-fast, before any dequeue, with no retry. -/
theorem C7_send_fail_fast_on_non_ack (genId : String) (payload : JObj)
    (data : JObj) (inbox : List JObj) (v : JVal)
    (hj : alist.get data "janus" = some v) (hv : v ≠ JVal.jstr "ack") :
    JanusPlugin.send genId payload (.reply data) inbox =
      ⟨JanusPlugin.mkMessage genId payload, 0, inbox, .error .assertAck⟩ := by
  simp [JanusPlugin.send, hj, hv]

theorem C7_send_fail_fast_on_non_ack_witness :
    JanusPlugin.send "abcdefghijkl" [("body", JVal.jstr "x")]
      (.reply [("janus", JVal.jstr "error")]) [[("r", JVal.jnum 1)]] =
      ⟨JanusPlugin.mkMessage "abcdefghijkl" [("body", JVal.jstr "x")], 0,
        [[("r", JVal.jnum 1)]], .error .assertAck⟩ :=
  C7_send_fail_fast_on_non_ack "abcdefghijkl" [("body", JVal.jstr "x")]
    [("janus", JVal.jstr "error")] [[("r", JVal.jnum 1)]]
    (JVal.jstr "error") (by decide) (by decide)

/-- C10: the poll loop reads `data["sender"]` unguarded, so an `"event"`
message with no `sender` field raises `KeyError`, which escapes the loop:
the message is not discarded and the loop terminates with an error. -/
theorem C10_missing_sender_key_error (plugins : List (JVal × PluginHandle))
    (e : JObj) (rest : List JObj)
    (hj : alist.get e "janus" = some (JVal.jstr "event"))
    (hs : alist.get e "sender" = none) :
    JanusSession.pollDispatch plugins e = .error .keyErrorSender ∧
    JanusSession.pollRun plugins (e :: rest) = .error .keyErrorSender := by
  have h1 : JanusSession.pollDispatch plugins e = .error .keyErrorSender := by
    simp [JanusSession.pollDispatch, hj, hs]
  exact ⟨h1, by simp [JanusSession.pollRun, h1]⟩

theorem C10_missing_sender_key_error_witness :
    JanusSession.pollDispatch [] [("janus", JVal.jstr "event")]
      = .error .keyErrorSender ∧
    JanusSession.pollRun [] [[("janus", JVal.jstr "event")], []]
      = .error .keyErrorSender :=
  C10_missing_sender_key_error [] [("janus", JVal.jstr "event")] [[]]
    (by decide) (by decide)

/-- C4: `destroy` is idempotent. After any `destroy` that returned
normally, a second `destroy` issues no gateway request, raises no error
and leaves the poll-task, session-URL and transport state unchanged; the
same holds for a `destroy` on a freshly initialised (Idle) session. -/
theorem C4_destroy_idempotent (s : SessionState) (p₁ p₂ : PostOutcome)
    (h : (JanusSession.destroy s p₁).ok = true) :
    JanusSession.destroy (JanusSession.destroy s p₁).state p₂ =
      ⟨(JanusSession.destroy s p₁).state, 0, true⟩ ∧
    ∀ url, JanusSession.destroy (JanusSession.init url) p₂ =
      ⟨JanusSession.init url, 0, true⟩ := by
  obtain ⟨h1, h2, h3⟩ := destroy_ok_state s p₁ h
  exact ⟨destroy_of_torn _ p₂ h1 h2 h3,
    fun url => destroy_of_torn _ p₂ rfl rfl rfl⟩

theorem C4_destroy_idempotent_witness :
    (JanusSession.destroy ⟨true, true, [], "http://gw", some "http://gw/1"⟩
        (.reply [("janus", JVal.jstr "success")])).ok = true ∧
    JanusSession.destroy
        (JanusSession.destroy ⟨true, true, [], "http://gw", some "http://gw/1"⟩
          (.reply [("janus", JVal.jstr "success")])).state .fail =
      ⟨(JanusSession.destroy ⟨true, true, [], "http://gw", some "http://gw/1"⟩
          (.reply [("janus", JVal.jstr "success")])).state, 0, true⟩ :=
  ⟨by decide,
    (C4_destroy_idempotent ⟨true, true, [], "http://gw", some "http://gw/1"⟩
      (.reply [("janus", JVal.jstr "success")]) .fail (by decide)).1⟩

/-- C3: one poll-loop dispatch preserves the inbox invariant — if every
message already in every handle's inbox carries that handle's registered
plugin id in its `sender` field, the same holds after dispatching any
received message. In particular an event with `sender = P1` is never
placed into the inbox of a handle registered under `P2 ≠ P1`: the dispatch
appends the event only to the handle looked up under the event's own
`sender` key. -/
theorem C3_inbox_isolation (plugins plugins' : List (JVal × PluginHandle))
    (data : JObj) (hinv : inboxInv plugins = true)
    (hstep : JanusSession.pollDispatch plugins data = .ok plugins') :
    inboxInv plugins' = true := by
  rw [inboxInv_iff] at hinv ⊢
  unfold JanusSession.pollDispatch at hstep
  split at hstep
  · exact absurd hstep (by simp)
  · split at hstep
    · split at hstep
      · exact absurd hstep (by simp)
      · rename_i sender hs
        split at hstep
        · rename_i handle hp
          simp only [Except.ok.injEq] at hstep
          subst hstep
          intro x hx m hm
          rcases alist.mem_set _ _ _ _ hx with hx' | hx'
          · exact hinv x hx' m hm
          · subst hx'
            simp only [List.mem_append, List.mem_singleton] at hm
            rcases hm with hm | hm
            · exact hinv (sender, handle) (alist.get_mem _ _ _ hp) m hm
            · exact hm ▸ hs
        · simp only [Except.ok.injEq] at hstep
          exact hstep ▸ hinv
    · simp only [Except.ok.injEq] at hstep
      exact hstep ▸ hinv

theorem C3_inbox_isolation_witness :
    inboxInv [(JVal.jnum 10, ⟨"u/10", []⟩)] = true ∧
    inboxInv [(JVal.jnum 10,
      ⟨"u/10", [[("janus", JVal.jstr "event"), ("sender", JVal.jnum 10)]]⟩)] = true :=
  ⟨by decide,
    C3_inbox_isolation [(JVal.jnum 10, ⟨"u/10", []⟩)]
      [(JVal.jnum 10,
        ⟨"u/10", [[("janus", JVal.jstr "event"), ("sender", JVal.jnum 10)]]⟩)]
      [("janus", JVal.jstr "event"), ("sender", JVal.jnum 10)]
      (by decide) (by decide)⟩

/-- C6: an event whose `sender` matches no registered plugin is discarded
without error and without touching the registry, and the poll loop then
delivers a following event for a registered plugin to that plugin's inbox
as usual. -/
theorem C6_orphan_tolerance (plugins : List (JVal × PluginHandle))
    (e1 e2 : JObj) (s1 p : JVal) (h : PluginHandle)
    (he1j : alist.get e1 "janus" = some (JVal.jstr "event"))
    (he1s : alist.get e1 "sender" = some s1)
    (horphan : alist.get plugins s1 = none)
    (he2j : alist.get e2 "janus" = some (JVal.jstr "event"))
    (he2s : alist.get e2 "sender" = some p)
    (hreg : alist.get plugins p = some h) :
    JanusSession.pollDispatch plugins e1 = .ok plugins ∧
    JanusSession.pollRun plugins [e1, e2] =
      .ok (alist.set plugins p { h with inbox := h.inbox ++ [e2] }) := by
  have h1 : JanusSession.pollDispatch plugins e1 = .ok plugins := by
    simp [JanusSession.pollDispatch, he1j, he1s, horphan]
  have h2 : JanusSession.pollDispatch plugins e2 =
      .ok (alist.set plugins p { h with inbox := h.inbox ++ [e2] }) := by
    simp [JanusSession.pollDispatch, he2j, he2s, hreg]
  refine ⟨h1, ?_⟩
  simp [JanusSession.pollRun, h1, h2]

theorem C6_orphan_tolerance_witness :
    JanusSession.pollDispatch [(JVal.jnum 10, ⟨"u/10", []⟩)]
      [("janus", JVal.jstr "event"), ("sender", JVal.jnum 99)] =
      .ok [(JVal.jnum 10, ⟨"u/10", []⟩)] ∧
    JanusSession.pollRun [(JVal.jnum 10, ⟨"u/10", []⟩)]
      [[("janus", JVal.jstr "event"), ("sender", JVal.jnum 99)],
       [("janus", JVal.jstr "event"), ("sender", JVal.jnum 10)]] =
      .ok (alist.set [(JVal.jnum 10, ⟨"u/10", []⟩)] (JVal.jnum 10)
        ⟨"u/10", [[("janus", JVal.jstr "event"), ("sender", JVal.jnum 10)]]⟩) :=
  C6_orphan_tolerance [(JVal.jnum 10, ⟨"u/10", []⟩)]
    [("janus", JVal.jstr "event"), ("sender", JVal.jnum 99)]
    [("janus", JVal.jstr "event"), ("sender", JVal.jnum 10)]
    (JVal.jnum 99) (JVal.jnum 10) ⟨"u/10", []⟩
    (by decide) (by decide) (by decide) (by decide) (by decide) (by decide)

/-- C8: `create` always POSTs the `{"janus": "create"}` envelope, carrying
a transaction id, to the root URL. On a `"success"` reply it sets the
session URL to the root URL extended with the gateway-assigned session id
and starts the (single) poll task; whenever it raises instead — transport
failure, a reply whose `janus` is not `"success"`, or a malformed success
reply — no poll task is started and the session URL is untouched. -/
theorem C8_create_contract (s : SessionState) (genId : String) (post : PostOutcome) :
    (JanusSession.create s genId post).postedTo = s.rootUrl ∧
    (JanusSession.create s genId post).posted =
      [("janus", JVal.jstr "create"), ("transaction", JVal.jstr genId)] ∧
    (∀ data inner sid, post = .reply data →
      alist.get data "janus" = some (JVal.jstr "success") →
      alist.get data "data" = some (.jobj inner) →
      JFields.get inner "id" = some sid →
      JanusSession.create s genId post =
        ⟨{ s with
             http := true,
             sessionUrl := some (s.rootUrl ++ "/" ++ sid.pyStr),
             pollTask := true },
         s.rootUrl,
         [("janus", JVal.jstr "create"), ("transaction", JVal.jstr genId)], true⟩) ∧
    ((JanusSession.create s genId post).ok = false →
      (JanusSession.create s genId post).state.pollTask = s.pollTask ∧
      (JanusSession.create s genId post).state.sessionUrl = s.sessionUrl) ∧
    (post = .fail → (JanusSession.create s genId post).ok = false) ∧
    (∀ data, post = .reply data →
      alist.get data "janus" ≠ some (JVal.jstr "success") →
      (JanusSession.create s genId post).ok = false) := by
  refine ⟨?_, ?_, ?_, ?_, ?_, ?_⟩
  · cases post with
    | fail => rfl
    | reply data =>
      simp only [JanusSession.create]
      repeat' split
      all_goals rfl
  · cases post with
    | fail => rfl
    | reply data =>
      simp only [JanusSession.create]
      repeat' split
      all_goals rfl
  · intro data inner sid hpost hj hd hid
    subst hpost
    simp [JanusSession.create, hj, hd, hid]
  · cases post with
    | fail => intro _; exact ⟨rfl, rfl⟩
    | reply data =>
      by_cases hj : alist.get data "janus" = some (JVal.jstr "success")
      · cases hd : alist.get data "data" with
        | none => intro _; simp [JanusSession.create, hj, hd]
        | some dv =>
          cases dv with
          | jstr v => intro _; simp [JanusSession.create, hj, hd]
          | jnum v => intro _; simp [JanusSession.create, hj, hd]
          | jobj inner =>
            cases hid : JFields.get inner "id" with
            | none => intro _; simp [JanusSession.create, hj, hd, hid]
            | some sid =>
              intro hok
              exact absurd hok (by simp [JanusSession.create, hj, hd, hid])
      · intro _; simp [JanusSession.create, hj]
  · intro hpost
    subst hpost
    rfl
  · intro data hpost hj
    subst hpost
    simp [JanusSession.create, hj]

theorem C8_create_contract_witness :
    JanusSession.create (JanusSession.init "http://gw") "abcdefghijkl"
        (.reply [("janus", JVal.jstr "success"),
          ("data", JVal.jobj (.fcons "id" (JVal.jnum 1) .fnil))]) =
      ⟨{ JanusSession.init "http://gw" with
           http := true,
           sessionUrl := some ("http://gw" ++ "/" ++ (JVal.jnum 1).pyStr),
           pollTask := true },
       "http://gw",
       [("janus", JVal.jstr "create"), ("transaction", JVal.jstr "abcdefghijkl")],
       true⟩ :=
  (C8_create_contract (JanusSession.init "http://gw") "abcdefghijkl"
    (.reply [("janus", JVal.jstr "success"),
      ("data", JVal.jobj (.fcons "id" (JVal.jnum 1) .fnil))])).2.2.1
    [("janus", JVal.jstr "success"),
      ("data", JVal.jobj (.fcons "id" (JVal.jnum 1) .fnil))]
    (.fcons "id" (JVal.jnum 1) .fnil) (JVal.jnum 1) rfl (by decide) (by decide) (by decide)

theorem alist.get_eq_none_iff {α β : Type} [DecidableEq α] (l : List (α × β)) (k : α) :
    alist.get l k = none ↔ k ∉ l.map Prod.fst := by
  induction l with
  | nil => simp [alist.get]
  | cons hd t ih =>
    obtain ⟨k₁, v₁⟩ := hd
    by_cases hk : k = k₁ <;> simp [alist.get, hk, ih]

/-- C9: `message.update(payload)` runs after the `janus` and `transaction`
fields are filled in, so a payload's own `transaction` (or `janus`) value
overwrites the generated one in the posted envelope, and the correlation
assertion then compares the dequeued event against the payload-supplied
transaction value, not the freshly generated token; only when the payload
carries neither key is the posted envelope exactly the generated base
envelope followed by the payload's fields. -/
theorem C9_payload_overrides (genId : String) (payload : JObj)
    (hnd : (payload.map Prod.fst).Nodup) :
    (∀ v, alist.get payload "transaction" = some v →
       alist.get (JanusPlugin.mkMessage genId payload) "transaction" = some v) ∧
    (∀ v, alist.get payload "janus" = some v →
       alist.get (JanusPlugin.mkMessage genId payload) "janus" = some v) ∧
    (∀ v ack item rest, alist.get payload "transaction" = some v →
       alist.get ack "janus" = some (JVal.jstr "ack") →
       (JanusPlugin.send genId payload (.reply ack) (item :: rest)).outcome =
         (match alist.get item "transaction" with
          | none => .error .keyErrorTxn
          | some t => if t = v then .ok item else .error .assertTxn)) ∧
    (alist.get payload "transaction" = none → alist.get payload "janus" = none →
       JanusPlugin.mkMessage genId payload =
         [("janus", JVal.jstr "message"), ("transaction", JVal.jstr genId)] ++ payload) := by
  refine ⟨?_, ?_, ?_, ?_⟩
  · intro v hv
    exact alist.get_updateAll_of_some _ _ _ _ hnd hv
  · intro v hv
    exact alist.get_updateAll_of_some _ _ _ _ hnd hv
  · intro v ack item rest hv hack
    have hmsg : alist.get (JanusPlugin.mkMessage genId payload) "transaction" = some v :=
      alist.get_updateAll_of_some _ _ _ _ hnd hv
    cases hit : alist.get item "transaction" with
    | none => simp [JanusPlugin.send, hack, hit]
    | some t =>
      by_cases htv : t = v
      · simp [JanusPlugin.send, hack, hit, hmsg, htv]
      · simp [JanusPlugin.send, hack, hit, hmsg, htv]
  · intro hpt hpj
    apply alist.updateAll_of_fresh _ _ hnd
    intro k hk hmem
    simp only [List.map_cons, List.map_nil, List.mem_cons, List.not_mem_nil,
      or_false] at hmem
    rcases hmem with rfl | rfl
    · exact (alist.get_eq_none_iff payload "janus").mp hpj hk
    · exact (alist.get_eq_none_iff payload "transaction").mp hpt hk

theorem C9_payload_overrides_witness :
    alist.get (JanusPlugin.mkMessage "abcdefghijkl" [("transaction", JVal.jstr "X")])
      "transaction" = some (JVal.jstr "X") :=
  (C9_payload_overrides "abcdefghijkl" [("transaction", JVal.jstr "X")] (by decide)).1
    (JVal.jstr "X") (by decide)

/-- C1 counterexample: a payload carrying its own `"transaction"` key
(here `"X"`) overwrites the generated id (`"abcdefghijkl"`, a possible
`transaction_id()` output) in the envelope, and `send` then returns
successfully an event whose `transaction` differs from the generated id —
no error is raised, contradicting the claim as stated for arbitrary
payloads. -/
theorem C1_counterexample :
    (JanusPlugin.send "abcdefghijkl" [("transaction", JVal.jstr "X")]
        (.reply [("janus", JVal.jstr "ack")])
        [[("transaction", JVal.jstr "X")]]).outcome =
      .ok [("transaction", JVal.jstr "X")] ∧
    alist.get [("transaction", JVal.jstr "X")] "transaction" ≠
      some (JVal.jstr "abcdefghijkl") := by decide

/-- C1 (amended): for every `send` whose payload does not itself carry a
`"transaction"` key — which is every payload this program passes to
`send` — a successful call returns exactly the item dequeued from the
handle's inbox, and that item's `transaction` equals the generated id;
and when the dequeued item's `transaction` is some value other than the
generated id, `send` raises (AssertionError) with the item consumed —
neither silently discarded without error nor re-queued. Payloads that do
carry a `"transaction"` key overwrite the generated id (see C9). -/
theorem C1_send_correlation (genId : String) (payload : JObj) (ack : JObj)
    (inbox : List JObj) (hp : alist.get payload "transaction" = none) :
    (∀ ev, (JanusPlugin.send genId payload (.reply ack) inbox).outcome = .ok ev →
       inbox.head? = some ev ∧
       alist.get ev "transaction" = some (JVal.jstr genId)) ∧
    (∀ item rest t, inbox = item :: rest →
       alist.get ack "janus" = some (JVal.jstr "ack") →
       alist.get item "transaction" = some t → t ≠ JVal.jstr genId →
       JanusPlugin.send genId payload (.reply ack) inbox =
         ⟨JanusPlugin.mkMessage genId payload, 1, rest, .error .assertTxn⟩) := by
  have hmsg := mkMessage_txn_default genId payload hp
  constructor
  · intro ev hev
    simp only [JanusPlugin.send] at hev
    split at hev
    · simp at hev
    · rename_i v hackv
      split at hev
      · split at hev
        · simp at hev
        · rename_i item rest
          split at hev
          · simp at hev
          · rename_i t hit
            split at hev
            · rename_i hcmp
              rw [hmsg] at hcmp
              simp only [Except.ok.injEq] at hev
              subst hev
              exact ⟨rfl, hcmp ▸ hit⟩
            · simp at hev
      · simp at hev
  · intro item rest t hinbox hack hit htne
    subst hinbox
    have hcmp : ¬ (some t = alist.get (JanusPlugin.mkMessage genId payload) "transaction") := by
      rw [hmsg]
      simp [htne]
    simp [JanusPlugin.send, hack, hit, hcmp]

theorem C1_send_correlation_witness :
    alist.get ([("body", JVal.jstr "x")] : JObj) "transaction" = none ∧
    ([[("transaction", JVal.jstr "abcdefghijkl")]] : List JObj).head? =
      some [("transaction", JVal.jstr "abcdefghijkl")] ∧
    alist.get [("transaction", JVal.jstr "abcdefghijkl")] "transaction" =
      some (JVal.jstr "abcdefghijkl") :=
  ⟨rfl,
    (C1_send_correlation "abcdefghijkl" [("body", JVal.jstr "x")]
      [("janus", JVal.jstr "ack")] [[("transaction", JVal.jstr "abcdefghijkl")]]
      rfl).1 [("transaction", JVal.jstr "abcdefghijkl")] (by decide)⟩

/-- C2 counterexample: on an active session (poll task running, open
client, session URL set), a `destroy` whose remote POST fails raises; the
poll task has been cancelled, but the HTTP client is still open — the
transport is NOT closed, contradicting the claim. -/
theorem C2_counterexample :
    (JanusSession.destroy ⟨true, true, [], "http://gw", some "http://gw/1"⟩
        .fail).ok = false ∧
    (JanusSession.destroy ⟨true, true, [], "http://gw", some "http://gw/1"⟩
        .fail).state.pollTask = false ∧
    (JanusSession.destroy ⟨true, true, [], "http://gw", some "http://gw/1"⟩
        .fail).state.http = true := by decide

/-- C2 (amended): when the remote destroy POST fails — transport error or
a reply whose `janus` is not `"success"` — on a session with a session
URL, the poll task has already been cancelled (cancellation precedes the
POST), but the HTTP client is left in its previous state (not closed: the
code has no try/finally) and the session URL stays set; the error
propagates to the caller. -/
theorem C2_destroy_partial_failure (s : SessionState) (post : PostOutcome)
    (u : String) (hurl : s.sessionUrl = some u)
    (hfail : post = .fail ∨ ∃ data, post = .reply data ∧
      alist.get data "janus" ≠ some (JVal.jstr "success")) :
    (JanusSession.destroy s post).state.pollTask = false ∧
    (JanusSession.destroy s post).state.http = s.http ∧
    (JanusSession.destroy s post).state.sessionUrl = some u ∧
    (JanusSession.destroy s post).ok = false := by
  rcases hfail with rfl | ⟨data, rfl, hj⟩
  · cases hpt : s.pollTask <;> simp [JanusSession.destroy, hurl, hpt]
  · cases hpt : s.pollTask <;> simp [JanusSession.destroy, hurl, hpt, hj]

theorem C2_destroy_partial_failure_witness :
    (JanusSession.destroy ⟨true, true, [], "http://gw", some "http://gw/1"⟩
        .fail).state.pollTask = false ∧
    (JanusSession.destroy ⟨true, true, [], "http://gw", some "http://gw/1"⟩
        .fail).state.http = true ∧
    (JanusSession.destroy ⟨true, true, [], "http://gw", some "http://gw/1"⟩
        .fail).state.sessionUrl = some "http://gw/1" ∧
    (JanusSession.destroy ⟨true, true, [], "http://gw", some "http://gw/1"⟩
        .fail).ok = false :=
  C2_destroy_partial_failure ⟨true, true, [], "http://gw", some "http://gw/1"⟩
    .fail "http://gw/1" rfl (Or.inl rfl)

/-- C5 counterexample: the activity invariant (session URL set iff poll
task running) holds on an active session but is violated right after a
`destroy` whose remote POST fails: the poll task is gone while the
session URL is still set. -/
theorem C5_counterexample :
    SessionState.activeInv ⟨true, true, [], "http://gw", some "http://gw/1"⟩
      = true ∧
    SessionState.activeInv
      (JanusSession.destroy ⟨true, true, [], "http://gw", some "http://gw/1"⟩
        .fail).state = false := by decide

/-- C5 (amended): the activity invariant — session URL non-null iff the
poll task is running — is preserved by `create` (any outcome), by
`attach` (any outcome) and by every `destroy` that returns normally; it
is NOT preserved by a `destroy` whose remote POST fails (see the
counterexample), which leaves the session URL set with no poll task.
There is at most one poll loop per session by construction: the state
holds a single `_poll_task` slot, which `create` overwrites and `destroy`
clears. -/
theorem C5_active_invariant (s : SessionState) (genId pluginName : String)
    (post : PostOutcome) (hinv : s.activeInv = true) :
    (JanusSession.create s genId post).state.activeInv = true ∧
    (JanusSession.attach s pluginName genId post).state.activeInv = true ∧
    ((JanusSession.destroy s post).ok = true →
      (JanusSession.destroy s post).state.activeInv = true) := by
  refine ⟨?_, ?_, ?_⟩
  · cases post with
    | fail => simpa [JanusSession.create, SessionState.activeInv] using hinv
    | reply data =>
      simp only [JanusSession.create]
      repeat' split
      all_goals simp_all [SessionState.activeInv]
  · cases post with
    | fail => simpa [JanusSession.attach, SessionState.activeInv] using hinv
    | reply data =>
      simp only [JanusSession.attach]
      repeat' split
      all_goals simp_all [SessionState.activeInv]
  · intro hok
    obtain ⟨h1, h2, h3⟩ := destroy_ok_state s post hok
    simp [SessionState.activeInv, h1, h2]

theorem C5_active_invariant_witness :
    SessionState.activeInv (JanusSession.init "http://gw") = true ∧
    (JanusSession.create (JanusSession.init "http://gw") "abcdefghijkl"
        .fail).state.activeInv = true :=
  ⟨by decide,
    (C5_active_invariant (JanusSession.init "http://gw") "abcdefghijkl"
      "janus.plugin.videoroom" .fail (by decide)).1⟩
